import Mathlib

/-!
Shallow embedding of the tensor marshaling and request/response layer of the
Triton inference-server Python clients
(src/clients/python/experimental_api_v2/library/grpcclient.py and httpclient.py).

Modelling conventions:
* Python values that can appear as parameter values or inside JSON bodies are
  one inductive type `PyVal`; floats carry an opaque integer payload (no claim
  inspects a float's numeric value).
* Python `dict`s are association lists with insertion-order update semantics
  (`dictSet`: replace in place when the key exists, append otherwise).
* Raised Python exceptions are modelled with `Except PyErr`.
* HTTP bodies are modelled at the JSON-value level (`PyVal`), so `json.dumps`
  and `json.loads` are identities of this model.
* Raw byte buffers are `List Nat` (each entry a byte value).
-/

/-- Python values relevant to this client: parameter values and JSON bodies.
`float` carries an opaque payload (its numeric value is never inspected by the
code under verification); `list` also stands for Python tuples, which
serialize to the same JSON arrays. -/
inductive PyVal where
  | int (n : Int)
  | bool (b : Bool)
  | str (s : String)
  | float (payload : Int)
  | list (xs : List PyVal)
  | dict (fields : List (String × PyVal))
  | pynone

/-- Modelled from the spec: `InferenceServerException` lives in the
tritonclient utils module, which is not under src/. Per the spec (section 4.6),
the uniform error representation carries a human-readable message, a
status/code classification, and a debug/trace string when available. Its
constructor defaults `status` and `debug_details` to absent. -/
structure InferenceServerException where
  msg : String
  status : Option String
  debug_details : Option String
deriving DecidableEq

/-- Python exceptions that the embedded code can raise. -/
inductive PyErr where
  | nameError (n : String)
  | unboundLocal (n : String)
  | keyError (k : String)
  | typeError (m : String)
  | valueError (m : String)
  | inferError (e : InferenceServerException)
deriving DecidableEq

/-- Modelled from the spec: `raise_error` of the tritonclient utils module
(not under src/) raises an `InferenceServerException` carrying just the given
message (status and debug details absent). -/
def raise_error (msg : String) : PyErr :=
  PyErr.inferError ⟨msg, Option.none, Option.none⟩

/-- Python dict update semantics on an association list (keys are unique, as
in a Python dict): replace the value in place when the key is present, append
the pair at the end otherwise. -/
def dictSet : List (String × α) → String → α → List (String × α)
  | [], k, v => [(k, v)]
  | p :: m, k, v => if p.1 = k then (k, v) :: m else p :: dictSet m k v

/-- Modelled from the spec: the numeric dtype name-mapping table
(`np_to_triton_dtype` in the tritonclient utils module, not under src/) is "a
pure lookup function external to this core"; the mapping follows the spec's
concrete scenarios (numpy `int32` maps to `INT32`). -/
def np_to_triton_dtype (d : String) : String :=
  if d = "bool" then "BOOL"
  else if d = "int8" then "INT8"
  else if d = "uint8" then "UINT8"
  else if d = "int32" then "INT32"
  else if d = "int64" then "INT64"
  else if d = "object" then "BYTES"
  else "UNMODELLED_" ++ d

/-- Modelled from the spec: the inverse dtype lookup (`triton_to_np_dtype` in
the tritonclient utils module, not under src/). -/
def triton_to_np_dtype (d : String) : String :=
  if d = "BOOL" then "bool"
  else if d = "INT8" then "int8"
  else if d = "UINT8" then "uint8"
  else if d = "INT32" then "int32"
  else if d = "INT64" then "int64"
  else if d = "BYTES" then "object"
  else "unmodelled_" ++ d

/-- One element of a numpy array as produced by the decode paths of
`as_numpy`: a (decoded) integer scalar or a variable-length byte string. -/
inductive NpElem where
  | int (n : Int)
  | bytes (bs : List Nat)
deriving DecidableEq

/-- Model of a numpy ndarray: its shape and its row-major flat element list. -/
structure NpArray where
  shape : List Nat
  data : List NpElem
deriving DecidableEq

/-- Little-endian accumulation of a byte list into an unsigned value. -/
def le_word (bs : List Nat) : Nat :=
  bs.foldr (fun b acc => b + 256 * acc) 0

/-- Reinterpret the unsigned value of a `w`-byte word as two's-complement. -/
def signedOfUnsigned (w : Nat) (u : Nat) : Int :=
  if u < 2 ^ (8 * w - 1) then (u : Int) else (u : Int) - 2 ^ (8 * w)

/-- Split a byte list into exact chunks of width `w` (fuel = list length). -/
def chunksExactFuel : Nat → Nat → List Nat → List (List Nat)
  | _, _, [] => []
  | 0, _, _ :: _ => []
  | fuel + 1, w, b :: bs => (b :: bs).take w :: chunksExactFuel fuel w ((b :: bs).drop w)

/-- Split a byte list into exact chunks of width `w`. -/
def chunksExact (w : Nat) (bs : List Nat) : List (List Nat) :=
  chunksExactFuel bs.length w bs

/-- `np.frombuffer(raw, dtype)`: reinterpret a raw byte buffer as a flat array
of fixed-width little-endian native values. Fixed-width integer dtypes are
modelled; a buffer length that is not a multiple of the element size raises
(as numpy does). Other numeric dtypes are outside this model's boundary. -/
def np_frombuffer (np_dtype : String) (bs : List Nat) : Except PyErr (List NpElem) :=
  let widthSigned : Option (Nat × Bool) :=
    if np_dtype = "int8" then some (1, true)
    else if np_dtype = "uint8" then some (1, false)
    else if np_dtype = "int32" then some (4, true)
    else if np_dtype = "int64" then some (8, true)
    else Option.none
  match widthSigned with
  | some (w, signed) =>
    if bs.length % w = 0 then
      Except.ok ((chunksExact w bs).map (fun c =>
        NpElem.int (if signed then signedOfUnsigned w (le_word c) else ((le_word c : Nat) : Int))))
    else Except.error (PyErr.valueError "buffer size must be a multiple of element size")
  | Option.none => Except.error (PyErr.valueError "np dtype outside model boundary")

/-- Modelled from the spec: `deserialize_bytes_tensor` of the tritonclient
utils module (not under src/). Per the spec (section 4.1), BYTES decode
"parses sequential length-prefixed runs until the buffer is exhausted",
each run being a 4-byte little-endian unsigned length followed by that many
raw bytes. Fuel-based recursion (fuel = buffer length). -/
def bytesRunsFuel : Nat → List Nat → Option (List (List Nat))
  | _, [] => some []
  | 0, _ :: _ => Option.none
  | fuel + 1, b :: bs =>
    let l := b :: bs
    if 4 ≤ l.length then
      let len := le_word (l.take 4)
      let rest := l.drop 4
      if len ≤ rest.length then
        (bytesRunsFuel fuel (rest.drop len)).map (fun es => rest.take len :: es)
      else Option.none
    else Option.none

/-- Modelled from the spec: see `bytesRunsFuel`. -/
def deserialize_bytes_tensor (bs : List Nat) : Option (List NpElem) :=
  (bytesRunsFuel bs.length bs).map (List.map NpElem.bytes)

/-- The element-filling rule of `np.resize` applied to row-major flat data:
the result has exactly `n` elements; if the input has fewer, the existing
elements are repeated cyclically from the start; if it has more, the extras
are truncated (an empty input fills with the dtype's zero). -/
def npResizeData (d : List NpElem) (n : Nat) : List NpElem :=
  (List.range n).map (fun i => d.getD (i % d.length) (NpElem.int 0))

/-- `np.resize(a, shape)`: a new array of the given shape filled by the
cyclic-repeat/truncate rule over the flat data. -/
def np_resize (a : NpArray) (shape : List Nat) : NpArray :=
  NpArray.mk shape (npResizeData a.data shape.prod)

/-- Modelled from the spec: the `resize` helper imported star-wise from the
tritonhttpclient utils module (not under src/). Per the spec's reshape
semantics (section 4.3.7 "Reshape semantics"), decoded flat data is reshaped
into the declared shape: fewer elements are repeated cyclically, extras are
truncated, and the array is updated in place (at the call site in
`InferResult.as_numpy` the helper's return value is discarded and the array
itself is returned afterwards, so in-place semantics is what the spec's
description requires). -/
def utils_resize (a : NpArray) (shape : List Nat) : NpArray :=
  np_resize a shape

/-! ## gRPC client (grpcclient.py) -/

/-- Protobuf `InferParameter` value: the oneof over int64, bool and string. -/
inductive ParamValue where
  | int64_param (n : Int)
  | bool_param (b : Bool)
  | string_param (s : String)
deriving DecidableEq

/-- The runtime type dispatch on a parameter value that every `set_parameter`
in grpcclient.py repeats verbatim: an exact-type check for int, then bool,
then str (Python's `type(v) is int` is false for `True`, so the order is
immaterial), any other type raising through `raise_error`. Note the source
obtains the map entry `param = ...parameters[key]` before this dispatch, so on
the error path protobuf has already created a default (valueless) entry; that
discarded entry carries no value and is not modelled. -/
def paramOfValue (value : PyVal) : Except PyErr ParamValue :=
  match value with
  | PyVal.int n => Except.ok (ParamValue.int64_param n)
  | PyVal.bool b => Except.ok (ParamValue.bool_param b)
  | PyVal.str s => Except.ok (ParamValue.string_param s)
  | _ => Except.error (raise_error "unsupported value type for the parameter")

/-- The protobuf `InferInputTensor` message owned by a gRPC `InferInput`
object (`self._input`); the wrapper object adds nothing beyond it, so the two
are identified. proto3 scalar fields default to empty. -/
structure GrpcInferInput where
  name : String
  datatype : String := ""
  shape : List Nat := []
  parameters : List (String × ParamValue) := []
  raw_contents : List Nat := []

/-- `InferInput.__init__(name)` of grpcclient.py. -/
def GrpcInferInput.ofName (name : String) : GrpcInferInput :=
  { name := name }

/-- `InferInput.datatype` property getter of grpcclient.py: returns the
stored datatype. -/
def GrpcInferInput.datatype_get (i : GrpcInferInput) : String :=
  i.datatype

/-- `InferInput.datatype` property setter of grpcclient.py. -/
def GrpcInferInput.datatype_set (i : GrpcInferInput) (value : String) : GrpcInferInput :=
  { i with datatype := value }

/-- `InferInput.shape` property getter of grpcclient.py: returns the stored
shape. -/
def GrpcInferInput.shape_get (i : GrpcInferInput) : List Nat :=
  i.shape

/-- `InferInput.shape` property setter of grpcclient.py: `ClearField('shape')`
followed by `extend(value)`, i.e. replacement. -/
def GrpcInferInput.shape_set (i : GrpcInferInput) (value : List Nat) : GrpcInferInput :=
  { i with shape := value }

/-- `InferInput.set_parameter(key, value)` of grpcclient.py: the key must be
exactly a str, then the value dispatch of `paramOfValue`. -/
def GrpcInferInput.set_parameter (i : GrpcInferInput) (key value : PyVal) :
    Except PyErr GrpcInferInput :=
  match key with
  | PyVal.str k =>
    match paramOfValue value with
    | Except.ok p => Except.ok { i with parameters := dictSet i.parameters k p }
    | Except.error e => Except.error e
  | _ => Except.error (raise_error "only string data type for key is supported in parameters")

/-- `InferInput._get_tensor()` of grpcclient.py returns the underlying
message (`self._input`), which this model identifies with the object. -/
def GrpcInferInput.get_tensor (i : GrpcInferInput) : GrpcInferInput :=
  i

/-- The protobuf `InferRequestedOutputTensor` message owned by a gRPC
`InferOutput` object. -/
structure GrpcInferOutput where
  name : String
  parameters : List (String × ParamValue) := []

/-- `InferOutput.__init__(name)` of grpcclient.py. -/
def GrpcInferOutput.ofName (name : String) : GrpcInferOutput :=
  { name := name }

/-- `InferOutput.set_parameter(key, value)` of grpcclient.py (same body as
the input-side one). -/
def GrpcInferOutput.set_parameter (o : GrpcInferOutput) (key value : PyVal) :
    Except PyErr GrpcInferOutput :=
  match key with
  | PyVal.str k =>
    match paramOfValue value with
    | Except.ok p => Except.ok { o with parameters := dictSet o.parameters k p }
    | Except.error e => Except.error e
  | _ => Except.error (raise_error "only string data type for key is supported in parameters")

/-- `InferOutput._get_tensor()` of grpcclient.py. -/
def GrpcInferOutput.get_tensor (o : GrpcInferOutput) : GrpcInferOutput :=
  o

/-- The protobuf `ModelInferRequest` message. `id` is a proto3 string field
defaulting to the empty string. -/
structure ModelInferRequest where
  model_name : String := ""
  model_version : String := ""
  id : String := ""
  parameters : List (String × ParamValue) := []
  inputs : List GrpcInferInput := []
  outputs : List GrpcInferOutput := []

/-- proto3 wire encoding omits scalar fields that hold their default value,
so the `id` field is absent from the wire form exactly when it is the empty
string. -/
def wire_omits_id (r : ModelInferRequest) : Bool :=
  r.id = ""

/-- `InferenceServerClient._get_inference_request` of grpcclient.py. It sets
`request.id` only when `request_id != None`, extends `inputs`/`outputs` with
each object's `_get_tensor()`, and, when the `parameters` dict is truthy
(non-None and non-empty), iterates it calling `_set_parameter(request, ...)`.
That call site names `_set_parameter` without `self.`; Python does not place
class-scope names in a method body's scope, so the first loop iteration
raises `NameError: name '_set_parameter' is not defined`. -/
def get_inference_request (inputs : List GrpcInferInput) (outputs : List GrpcInferOutput)
    (model_name model_version : String) (request_id : Option String)
    (parameters : Option (List (String × PyVal))) : Except PyErr ModelInferRequest :=
  let req : ModelInferRequest :=
    { model_name := model_name
      model_version := model_version
      id := match request_id with
            | some s => s
            | Option.none => ""
      inputs := inputs.map GrpcInferInput.get_tensor
      outputs := outputs.map GrpcInferOutput.get_tensor }
  match parameters with
  | Option.none => Except.ok req
  | some [] => Except.ok req
  | some (_ :: _) => Except.error (PyErr.nameError "_set_parameter")

/-- One output tensor of a protobuf `ModelInferResponse`: its contents hold a
raw byte buffer and a repeated `byte_contents` field. -/
structure GrpcOutputTensor where
  name : String
  datatype : String
  shape : List Nat
  raw_contents : List Nat
  byte_contents : List (List Nat)

/-- The protobuf `ModelInferResponse` message (statistics not modelled; no
claim concerns them). -/
structure ModelInferResponse where
  outputs : List GrpcOutputTensor

/-- A gRPC transport failure as seen by the client: `grpc.RpcError` exposing
`details()`, `str(code())` and `debug_error_string()`. -/
structure RpcErrorRec where
  details : String
  code : String
  debug_error_string : String
deriving DecidableEq

/-- `raise_error_grpc` of grpcclient.py: wraps a transport failure into the
uniform `InferenceServerException` with `msg=details()`, `status=str(code())`
and `debug_details=debug_error_string()`. -/
def raise_error_grpc (e : RpcErrorRec) : PyErr :=
  PyErr.inferError ⟨e.details, some e.code, some e.debug_error_string⟩

/-- `InferResult.__init__` of grpcclient.py stores the response message. -/
structure GrpcInferResult where
  result : ModelInferResponse

/-- The body of the matched branch of gRPC `InferResult.as_numpy` before the
final `np.resize`: produce the flat decoded `np_array`. When `raw_contents`
is non-empty, BYTES parses length-prefixed runs and fixed-width dtypes
reinterpret the buffer; otherwise, when `byte_contents` is non-empty, the
array is built from those elements directly; when both are empty no branch
assigns `np_array`, so the following use raises `UnboundLocalError`. -/
def grpcDecodeFlat (out : GrpcOutputTensor) : Except PyErr (List NpElem) :=
  if out.raw_contents.length ≠ 0 then
    if out.datatype = "BYTES" then
      match deserialize_bytes_tensor out.raw_contents with
      | some es => Except.ok es
      | Option.none => Except.error (PyErr.valueError "malformed BYTES tensor")
    else np_frombuffer (triton_to_np_dtype out.datatype) out.raw_contents
  else if out.byte_contents.length ≠ 0 then
    Except.ok (out.byte_contents.map NpElem.bytes)
  else Except.error (PyErr.unboundLocal "np_array")

/-- The output-scanning loop of gRPC `InferResult.as_numpy(name)`: linear
scan for the first exact name match; at the match, decode the flat data and
return `np.resize(np_array, shape)`; falling off the loop returns None. -/
def grpcAsNumpyLoop (name : String) : List GrpcOutputTensor → Except PyErr (Option NpArray)
  | [] => Except.ok Option.none
  | out :: rest =>
    if out.name = name then
      match grpcDecodeFlat out with
      | Except.ok d => Except.ok (some (np_resize (NpArray.mk [d.length] d) out.shape))
      | Except.error e => Except.error e
    else grpcAsNumpyLoop name rest

/-- `InferResult.as_numpy(name)` of grpcclient.py. -/
def GrpcInferResult.as_numpy (r : GrpcInferResult) (name : String) :
    Except PyErr (Option NpArray) :=
  grpcAsNumpyLoop name r.result.outputs

/-- `InferenceServerClient.infer` of grpcclient.py: build the request with
`_get_inference_request`, dispatch it through the stub's `ModelInfer`, wrap
the response in an `InferResult`; a `grpc.RpcError` is translated by
`raise_error_grpc`. The stub is the only I/O boundary and is passed in as a
function. -/
def grpcInfer (stub : ModelInferRequest → Except RpcErrorRec ModelInferResponse)
    (inputs : List GrpcInferInput) (outputs : List GrpcInferOutput)
    (model_name : String) (model_version : String) (request_id : Option String)
    (parameters : Option (List (String × PyVal))) : Except PyErr GrpcInferResult :=
  match get_inference_request inputs outputs model_name model_version request_id parameters with
  | Except.error e => Except.error e
  | Except.ok req =>
    match stub req with
    | Except.ok resp => Except.ok ⟨resp⟩
    | Except.error rpc_error => Except.error (raise_error_grpc rpc_error)

/-! ## HTTP/REST client (httpclient.py) -/

/-- A numpy ndarray passed to `set_data_from_numpy`: its numpy dtype name,
its shape, and its row-major flat integer contents (`.flatten()` of a
C-ordered array is exactly this list; `.item()` of each element is the plain
Python scalar). -/
structure NpInputTensor where
  dtype : String
  shape : List Nat
  flat : List Int

/-- An HTTP `InferInput` object of httpclient.py: the `self._input` dict and
the `self._parameters` dict. -/
structure HttpInferInput where
  input : List (String × PyVal)
  parameters : List (String × PyVal)

/-- `InferInput.__init__(name)` of httpclient.py: `_input = {'name': name}`,
`_parameters = {}`. -/
def HttpInferInput.ofName (name : String) : HttpInferInput :=
  ⟨[("name", PyVal.str name)], []⟩

/-- `InferInput.datatype` property getter of httpclient.py: the body is the
bare expression `self._input['datatype']` with no `return`, so it evaluates
the dict access (raising `KeyError` when the key is absent) and then returns
Python `None`. -/
def HttpInferInput.datatype_get (i : HttpInferInput) : Except PyErr (Option PyVal) :=
  match i.input.lookup "datatype" with
  | some _ => Except.ok Option.none
  | Option.none => Except.error (PyErr.keyError "datatype")

/-- `InferInput.datatype` property setter of httpclient.py. -/
def HttpInferInput.datatype_set (i : HttpInferInput) (value : String) : HttpInferInput :=
  { i with input := dictSet i.input "datatype" (PyVal.str value) }

/-- `InferInput.shape` property getter of httpclient.py: same missing
`return` as the datatype getter. -/
def HttpInferInput.shape_get (i : HttpInferInput) : Except PyErr (Option PyVal) :=
  match i.input.lookup "shape" with
  | some _ => Except.ok Option.none
  | Option.none => Except.error (PyErr.keyError "shape")

/-- `InferInput.shape` property setter of httpclient.py. -/
def HttpInferInput.shape_set (i : HttpInferInput) (value : List Nat) : HttpInferInput :=
  { i with input := dictSet i.input "shape" (PyVal.list (value.map (fun n => PyVal.int n))) }

/-- `InferInput.set_data_from_numpy(input_tensor)` of httpclient.py: stores
`np_to_triton_dtype(dtype)` under 'datatype', the shape tuple under 'shape'
and the flattened scalar list under 'data' (the isinstance ndarray check is
enforced by this model's input type). -/
def HttpInferInput.set_data_from_numpy (i : HttpInferInput) (t : NpInputTensor) :
    HttpInferInput :=
  let i1 := dictSet i.input "datatype" (PyVal.str (np_to_triton_dtype t.dtype))
  let i2 := dictSet i1 "shape" (PyVal.list (t.shape.map (fun n => PyVal.int n)))
  let i3 := dictSet i2 "data" (PyVal.list (t.flat.map (fun n => PyVal.int n)))
  { i with input := i3 }

/-- `InferInput.set_parameter(key, value)` of httpclient.py: the key must be
exactly a str; the value is stored as given, with no type check and no
coercion. -/
def HttpInferInput.set_parameter (i : HttpInferInput) (key value : PyVal) :
    Except PyErr HttpInferInput :=
  match key with
  | PyVal.str k => Except.ok { i with parameters := dictSet i.parameters k value }
  | _ => Except.error (raise_error "only string data type for key is supported in parameters")

/-- `InferInput._get_tensor()` of httpclient.py: stores the parameters dict
under `_input['parameters']` and returns the `_input` dict. -/
def HttpInferInput.get_tensor (i : HttpInferInput) : List (String × PyVal) :=
  dictSet i.input "parameters" (PyVal.dict i.parameters)

/-- An HTTP `InferOutput` object of httpclient.py. -/
structure HttpInferOutput where
  output : List (String × PyVal)
  parameters : List (String × PyVal)

/-- `InferOutput.__init__(name)` of httpclient.py. -/
def HttpInferOutput.ofName (name : String) : HttpInferOutput :=
  ⟨[("name", PyVal.str name)], []⟩

/-- `InferOutput.set_parameter(key, value)` of httpclient.py: same body as
the input-side one (key checked, value stored unvalidated). -/
def HttpInferOutput.set_parameter (o : HttpInferOutput) (key value : PyVal) :
    Except PyErr HttpInferOutput :=
  match key with
  | PyVal.str k => Except.ok { o with parameters := dictSet o.parameters k value }
  | _ => Except.error (raise_error "only string data type for key is supported in parameters")

/-- `InferOutput._get_tensor()` of httpclient.py. -/
def HttpInferOutput.get_tensor (o : HttpInferOutput) : List (String × PyVal) :=
  dictSet o.output "parameters" (PyVal.dict o.parameters)

/-- An HTTP response as seen by the client: the status code and the JSON
decoding of `response.read()` (bodies are modelled at the JSON-value level). -/
structure HttpResponse where
  status_code : Nat
  body : PyVal

/-- `raise_if_error(response)` of httpclient.py: on a non-200 status, decode
the body and raise with the `"error"` field of the JSON error envelope
(a non-dict body raises TypeError at the subscript, a dict without the field
raises KeyError, both as in Python). -/
def raise_if_error (response : HttpResponse) : Except PyErr Unit :=
  if response.status_code ≠ 200 then
    match response.body with
    | PyVal.dict fields =>
      match fields.lookup "error" with
      | some (PyVal.str m) => Except.error (raise_error m)
      | some _ => Except.error (PyErr.typeError "error field is not a string")
      | Option.none => Except.error (PyErr.keyError "error")
    | _ => Except.error (PyErr.typeError "response body is not a JSON object")
  else Except.ok ()

/-- HTTP methods used by the client. -/
inductive HttpMethod where
  | get
  | post
deriving DecidableEq

/-- One HTTP exchange issued by the client: method, request URI and, for
POST, the serialized body (at the JSON-value level). -/
structure HttpRequestRec where
  method : HttpMethod
  uri : String
  body : Option PyVal

/-- The infer URI of httpclient.py's `infer`: versionless when
`model_version` is falsy (empty). -/
def httpInferUri (model_name model_version : String) : String :=
  if model_version = "" then "v2/models/" ++ model_name ++ "/infer"
  else "v2/models/" ++ model_name ++ "/versions/" ++ model_version ++ "/infer"

/-- The `infer_request` dict built by httpclient.py's `infer`: 'id' only when
`request_id` is truthy (a non-empty string), 'parameters' only when the dict
is truthy (non-None, non-empty), always 'inputs' (each input's
`_get_tensor()`), and 'outputs' only when the list is truthy. -/
def httpInferRequestBody (inputs : List HttpInferInput)
    (outputs : Option (List HttpInferOutput)) (request_id : Option String)
    (parameters : Option (List (String × PyVal))) : PyVal :=
  let r0 : List (String × PyVal) := []
  let r1 := match request_id with
    | some s => if s ≠ "" then dictSet r0 "id" (PyVal.str s) else r0
    | Option.none => r0
  let r2 := match parameters with
    | some [] => r1
    | some (p :: ps) => dictSet r1 "parameters" (PyVal.dict (p :: ps))
    | Option.none => r1
  let r3 := dictSet r2 "inputs"
    (PyVal.list (inputs.map (fun i => PyVal.dict i.get_tensor)))
  let r4 := match outputs with
    | some [] => r3
    | some (o :: os) =>
      dictSet r3 "outputs" (PyVal.list ((o :: os).map (fun x => PyVal.dict x.get_tensor)))
    | Option.none => r3
  PyVal.dict r4

/-- `InferResult.__init__` of httpclient.py stores `json.loads(result)`; with
bodies modelled at the JSON-value level the parse is the identity. -/
structure HttpInferResult where
  result : PyVal

/-- `InferenceServerClient.infer` of httpclient.py: serialize the request
dict, POST it to the infer URI, then issue a separate GET to the same URI and
build the `InferResult` from the GET response's body; the POST response is
bound and immediately overwritten. The stub is the I/O boundary; the returned
trace lists the exchanges the call issues, in order. -/
def httpInfer (stub : HttpRequestRec → HttpResponse)
    (inputs : List HttpInferInput) (model_name : String) (model_version : String)
    (outputs : Option (List HttpInferOutput)) (request_id : Option String)
    (parameters : Option (List (String × PyVal))) :
    List HttpRequestRec × HttpInferResult :=
  let request_body := httpInferRequestBody inputs outputs request_id parameters
  let request_uri := httpInferUri model_name model_version
  let postExchange : HttpRequestRec := ⟨HttpMethod.post, request_uri, some request_body⟩
  let getExchange : HttpRequestRec := ⟨HttpMethod.get, request_uri, Option.none⟩
  let _response_from_post := stub postExchange
  let response := stub getExchange
  ([postExchange, getExchange], ⟨response.body⟩)

/-- A structured view of one output object of a decoded HTTP infer response:
the 'name', 'datatype', 'shape' and 'data' fields that `as_numpy` reads. -/
structure HttpOutputTensor where
  name : String
  datatype : String
  shape : List Nat
  data : List PyVal

/-- `np.array(data, dtype)` on the flat JSON 'data' list: integers are taken
modulo the dtype's width (numpy wraps), booleans convert to 0/1; other
element kinds are outside this model's boundary. -/
def np_array_of_values (np_dtype : String) (data : List PyVal) :
    Except PyErr (List NpElem) :=
  let width : Option Nat :=
    if np_dtype = "int8" then some 1
    else if np_dtype = "int32" then some 4
    else if np_dtype = "int64" then some 8
    else Option.none
  match width with
  | some w =>
    data.mapM (fun v =>
      match v with
      | PyVal.int n => Except.ok (NpElem.int (signedOfUnsigned w (n.emod (2 ^ (8 * w))).toNat))
      | PyVal.bool b => Except.ok (NpElem.int (if b then 1 else 0))
      | _ => Except.error (PyErr.valueError "cannot convert element"))
  | Option.none => Except.error (PyErr.valueError "np dtype outside model boundary")

/-- The output-scanning loop of HTTP `InferResult.as_numpy(name)`: linear
scan for the first exact name match; at the match, build the flat array from
the 'data' list and apply the `resize` helper against the declared 'shape'
(returning the resized array, per the spec-modelled in-place semantics of
`utils_resize`); falling off the loop returns None. -/
def httpAsNumpyLoop (name : String) : List HttpOutputTensor → Except PyErr (Option NpArray)
  | [] => Except.ok Option.none
  | out :: rest =>
    if out.name = name then
      match np_array_of_values (triton_to_np_dtype out.datatype) out.data with
      | Except.ok d => Except.ok (some (utils_resize (NpArray.mk [d.length] d) out.shape))
      | Except.error e => Except.error e
    else httpAsNumpyLoop name rest

/-- `InferResult.as_numpy(name)` of httpclient.py, over the structured view
of the decoded response's 'outputs' list. -/
def httpAsNumpy (outputs : List HttpOutputTensor) (name : String) :
    Except PyErr (Option NpArray) :=
  httpAsNumpyLoop name outputs

/-- Whether a JSON object value carries a field of the given key. -/
def jsonHasKey (v : PyVal) (k : String) : Bool :=
  match v with
  | PyVal.dict fields => (fields.lookup k).isSome
  | _ => false

/-! ## Helper lemmas -/

theorem lookup_dictSet (m : List (String × α)) (k : String) (v : α) :
    (dictSet m k v).lookup k = some v := by
  induction m with
  | nil => simp [dictSet, List.lookup]
  | cons a m ih =>
    by_cases hk : a.1 = k
    · simp [dictSet, hk, List.lookup]
    · have hne : (k == a.1) = false := by
        simp [Ne.symm hk]
      simp [dictSet, hk, List.lookup, hne, ih]

theorem lookup_dictSet_ne (m : List (String × α)) (k k2 : String) (v : α) (h : k2 ≠ k) :
    (dictSet m k v).lookup k2 = m.lookup k2 := by
  induction m with
  | nil =>
    have h1 : (k2 == k) = false := by simp [h]
    simp [dictSet, List.lookup, h1]
  | cons a m ih =>
    by_cases hk : a.1 = k
    · have h1 : (k2 == k) = false := by simp [h]
      have h2 : (k2 == a.1) = false := by simp [hk, h]
      simp [dictSet, hk, List.lookup, h1, h2]
    · simp only [dictSet, if_neg hk, List.lookup, ih]

theorem npResizeData_length (d : List NpElem) (n : Nat) :
    (npResizeData d n).length = n := by
  simp [npResizeData]

theorem npResizeData_getD (d : List NpElem) (n i : Nat) (hi : i < n) :
    (npResizeData d n).getD i (NpElem.int 0) = d.getD (i % d.length) (NpElem.int 0) := by
  simp [npResizeData, List.getD_eq_getElem?_getD, List.getElem?_map,
    List.getElem?_range hi]

theorem grpcAsNumpyLoop_append (name : String) (pre : List GrpcOutputTensor)
    (hpre : ∀ o ∈ pre, o.name ≠ name) (rest : List GrpcOutputTensor) :
    grpcAsNumpyLoop name (pre ++ rest) = grpcAsNumpyLoop name rest := by
  induction pre with
  | nil => rfl
  | cons a pre ih =>
    have ha : a.name ≠ name := hpre a (List.mem_cons_self a pre)
    have ih2 := ih (fun o ho => hpre o (List.mem_cons_of_mem a ho))
    simp [grpcAsNumpyLoop, ha, ih2]

theorem httpAsNumpyLoop_append (name : String) (pre : List HttpOutputTensor)
    (hpre : ∀ o ∈ pre, o.name ≠ name) (rest : List HttpOutputTensor) :
    httpAsNumpyLoop name (pre ++ rest) = httpAsNumpyLoop name rest := by
  induction pre with
  | nil => rfl
  | cons a pre ih =>
    have ha : a.name ≠ name := hpre a (List.mem_cons_self a pre)
    have ih2 := ih (fun o ho => hpre o (List.mem_cons_of_mem a ho))
    simp [httpAsNumpyLoop, ha, ih2]

/-! ## Claim theorems -/

/-- C1: for every decoded output tensor returned by `InferResult.as_numpy`
(on either transport), the flat decoded data is reshaped into the declared
shape by the resize rule: fewer elements than the shape's product are
repeated cyclically from the start, extra elements are truncated, and no
error is raised on a count/shape mismatch. In particular decoding the two
elements 7 and 9 against shape [4] yields [7, 9, 7, 9], and decoding five
elements against shape [3] yields the first three. -/
theorem C1_as_numpy_resize_rule :
    (∀ (pre : List GrpcOutputTensor) (out : GrpcOutputTensor)
        (post : List GrpcOutputTensor) (name : String) (d : List NpElem),
        (∀ o ∈ pre, o.name ≠ name) → out.name = name →
        grpcDecodeFlat out = Except.ok d →
        ∃ arr : NpArray,
          grpcAsNumpyLoop name (pre ++ out :: post) = Except.ok (some arr) ∧
          arr.shape = out.shape ∧
          arr.data.length = out.shape.prod ∧
          ∀ i : Nat, i < out.shape.prod →
            arr.data.getD i (NpElem.int 0) = d.getD (i % d.length) (NpElem.int 0)) ∧
    (∀ (pre : List HttpOutputTensor) (out : HttpOutputTensor)
        (post : List HttpOutputTensor) (name : String) (d : List NpElem),
        (∀ o ∈ pre, o.name ≠ name) → out.name = name →
        np_array_of_values (triton_to_np_dtype out.datatype) out.data = Except.ok d →
        ∃ arr : NpArray,
          httpAsNumpy (pre ++ out :: post) name = Except.ok (some arr) ∧
          arr.shape = out.shape ∧
          arr.data.length = out.shape.prod ∧
          ∀ i : Nat, i < out.shape.prod →
            arr.data.getD i (NpElem.int 0) = d.getD (i % d.length) (NpElem.int 0)) ∧
    grpcAsNumpyLoop "OUT" [⟨"OUT", "INT32", [4], [7, 0, 0, 0, 9, 0, 0, 0], []⟩]
      = Except.ok (some ⟨[4], [NpElem.int 7, NpElem.int 9, NpElem.int 7, NpElem.int 9]⟩) ∧
    httpAsNumpy [⟨"OUT", "INT32", [3],
        [PyVal.int 1, PyVal.int 2, PyVal.int 3, PyVal.int 4, PyVal.int 5]⟩] "OUT"
      = Except.ok (some ⟨[3], [NpElem.int 1, NpElem.int 2, NpElem.int 3]⟩) := by
  refine ⟨?_, ?_, rfl, rfl⟩
  · intro pre out post name d hpre hname hdec
    refine ⟨np_resize (NpArray.mk [d.length] d) out.shape, ?_, rfl, ?_, ?_⟩
    · rw [grpcAsNumpyLoop_append name pre hpre]
      simp [grpcAsNumpyLoop, hname, hdec]
    · exact npResizeData_length d out.shape.prod
    · intro i hi
      exact npResizeData_getD d out.shape.prod i hi
  · intro pre out post name d hpre hname hdec
    refine ⟨utils_resize (NpArray.mk [d.length] d) out.shape, ?_, rfl, ?_, ?_⟩
    · unfold httpAsNumpy
      rw [httpAsNumpyLoop_append name pre hpre]
      simp [httpAsNumpyLoop, hname, hdec]
    · exact npResizeData_length d out.shape.prod
    · intro i hi
      exact npResizeData_getD d out.shape.prod i hi

/-- Witness for C1: both general conjuncts applied at concrete inputs — a
gRPC INT32 output holding the two elements 1 and 2 declared with shape [5]
(tiling), and an HTTP INT32 output holding four elements declared with shape
[2] (truncation). -/
theorem C1_as_numpy_resize_rule_witness :
    (∃ arr : NpArray,
      grpcAsNumpyLoop "OUT0"
          ([] ++ GrpcOutputTensor.mk "OUT0" "INT32" [5] [1, 0, 0, 0, 2, 0, 0, 0] [] :: [])
        = Except.ok (some arr) ∧
      arr.shape = (GrpcOutputTensor.mk "OUT0" "INT32" [5] [1, 0, 0, 0, 2, 0, 0, 0] []).shape ∧
      arr.data.length = (GrpcOutputTensor.mk "OUT0" "INT32" [5] [1, 0, 0, 0, 2, 0, 0, 0] []).shape.prod ∧
      ∀ i : Nat, i < (GrpcOutputTensor.mk "OUT0" "INT32" [5] [1, 0, 0, 0, 2, 0, 0, 0] []).shape.prod →
        arr.data.getD i (NpElem.int 0)
          = [NpElem.int 1, NpElem.int 2].getD (i % [NpElem.int 1, NpElem.int 2].length) (NpElem.int 0)) ∧
    (∃ arr : NpArray,
      httpAsNumpy
          ([] ++ HttpOutputTensor.mk "OUT1" "INT32" [2]
              [PyVal.int 3, PyVal.int 4, PyVal.int 5, PyVal.int 6] :: []) "OUT1"
        = Except.ok (some arr) ∧
      arr.shape = (HttpOutputTensor.mk "OUT1" "INT32" [2]
          [PyVal.int 3, PyVal.int 4, PyVal.int 5, PyVal.int 6]).shape ∧
      arr.data.length = (HttpOutputTensor.mk "OUT1" "INT32" [2]
          [PyVal.int 3, PyVal.int 4, PyVal.int 5, PyVal.int 6]).shape.prod ∧
      ∀ i : Nat, i < (HttpOutputTensor.mk "OUT1" "INT32" [2]
          [PyVal.int 3, PyVal.int 4, PyVal.int 5, PyVal.int 6]).shape.prod →
        arr.data.getD i (NpElem.int 0)
          = [NpElem.int 3, NpElem.int 4, NpElem.int 5, NpElem.int 6].getD
              (i % [NpElem.int 3, NpElem.int 4, NpElem.int 5, NpElem.int 6].length) (NpElem.int 0)) := by
  constructor
  · exact C1_as_numpy_resize_rule.1 []
      (GrpcOutputTensor.mk "OUT0" "INT32" [5] [1, 0, 0, 0, 2, 0, 0, 0] []) [] "OUT0"
      [NpElem.int 1, NpElem.int 2] (by simp) rfl rfl
  · exact C1_as_numpy_resize_rule.2.1 []
      (HttpOutputTensor.mk "OUT1" "INT32" [2]
        [PyVal.int 3, PyVal.int 4, PyVal.int 5, PyVal.int 6]) [] "OUT1"
      [NpElem.int 3, NpElem.int 4, NpElem.int 5, NpElem.int 6] (by simp) rfl rfl

/-- C2 counterexample: on the JSON/REST transport, `InferInput.set_parameter`
with a float value does not raise a validation error — it stores the float
under the key unchanged, refuting the claim that on either transport a value
outside int/bool/string raises. -/
theorem C2_http_float_param_accepted :
    (HttpInferInput.ofName "INPUT0").set_parameter (PyVal.str "k") (PyVal.float 0)
      = Except.ok ⟨[("name", PyVal.str "INPUT0")], [("k", PyVal.float 0)]⟩ := rfl

/-- C2 (amended): on the gRPC transport, `set_parameter` of both `InferInput`
and `InferOutput` stores int, bool and string values under their kind and
raises a validation error, before any I/O, for a non-string key or for any
value outside those three kinds (float, nested list, nested dict), with no
coercion. On the JSON/REST transport, `set_parameter` of both classes
validates only that the key is a string: any value whatsoever — including
floats and nested structures — is stored unchanged, without validation and
without coercion. -/
theorem C2_set_parameter_validation :
    (∀ (i : GrpcInferInput) (k : String) (n : Int) (b : Bool) (s : String),
      i.set_parameter (PyVal.str k) (PyVal.int n)
        = Except.ok { i with parameters := dictSet i.parameters k (ParamValue.int64_param n) } ∧
      i.set_parameter (PyVal.str k) (PyVal.bool b)
        = Except.ok { i with parameters := dictSet i.parameters k (ParamValue.bool_param b) } ∧
      i.set_parameter (PyVal.str k) (PyVal.str s)
        = Except.ok { i with parameters := dictSet i.parameters k (ParamValue.string_param s) }) ∧
    (∀ (i : GrpcInferInput) (k : String) (q : Int) (xs : List PyVal)
        (fs : List (String × PyVal)),
      i.set_parameter (PyVal.str k) (PyVal.float q)
        = Except.error (raise_error "unsupported value type for the parameter") ∧
      i.set_parameter (PyVal.str k) (PyVal.list xs)
        = Except.error (raise_error "unsupported value type for the parameter") ∧
      i.set_parameter (PyVal.str k) (PyVal.dict fs)
        = Except.error (raise_error "unsupported value type for the parameter")) ∧
    (∀ (i : GrpcInferInput) (key value : PyVal), (∀ s, key ≠ PyVal.str s) →
      i.set_parameter key value
        = Except.error (raise_error "only string data type for key is supported in parameters")) ∧
    (∀ (o : GrpcInferOutput) (k : String) (n : Int) (q : Int),
      o.set_parameter (PyVal.str k) (PyVal.int n)
        = Except.ok { o with parameters := dictSet o.parameters k (ParamValue.int64_param n) } ∧
      o.set_parameter (PyVal.str k) (PyVal.float q)
        = Except.error (raise_error "unsupported value type for the parameter")) ∧
    (∀ (i : HttpInferInput) (k : String) (value : PyVal),
      i.set_parameter (PyVal.str k) value
        = Except.ok { i with parameters := dictSet i.parameters k value }) ∧
    (∀ (i : HttpInferInput) (key value : PyVal), (∀ s, key ≠ PyVal.str s) →
      i.set_parameter key value
        = Except.error (raise_error "only string data type for key is supported in parameters")) ∧
    (∀ (o : HttpInferOutput) (k : String) (value : PyVal),
      o.set_parameter (PyVal.str k) value
        = Except.ok { o with parameters := dictSet o.parameters k value }) := by
  refine ⟨?_, ?_, ?_, ?_, ?_, ?_, ?_⟩
  · intro i k n b s
    exact ⟨rfl, rfl, rfl⟩
  · intro i k q xs fs
    exact ⟨rfl, rfl, rfl⟩
  · intro i key value h
    cases key with
    | str s => exact absurd rfl (h s)
    | int n => rfl
    | bool b => rfl
    | float q => rfl
    | list xs => rfl
    | dict fs => rfl
    | pynone => rfl
  · intro o k n q
    exact ⟨rfl, rfl⟩
  · intro i k value
    rfl
  · intro i key value h
    cases key with
    | str s => exact absurd rfl (h s)
    | int n => rfl
    | bool b => rfl
    | float q => rfl
    | list xs => rfl
    | dict fs => rfl
    | pynone => rfl
  · intro o k value
    rfl

/-- Witness for C2 (amended): concrete instances — a gRPC input rejects a
float value and a non-string key, and an HTTP input stores a float value
without error. -/
theorem C2_set_parameter_validation_witness :
    ((GrpcInferInput.ofName "IN").set_parameter (PyVal.str "k") (PyVal.float 0)
      = Except.error (raise_error "unsupported value type for the parameter")) ∧
    ((GrpcInferInput.ofName "IN").set_parameter (PyVal.int 3) (PyVal.int 1)
      = Except.error (raise_error "only string data type for key is supported in parameters")) ∧
    ((HttpInferInput.ofName "IN").set_parameter (PyVal.str "k") (PyVal.float 0)
      = Except.ok { HttpInferInput.ofName "IN" with
          parameters := dictSet (HttpInferInput.ofName "IN").parameters "k" (PyVal.float 0) }) :=
  ⟨(C2_set_parameter_validation.2.1 (GrpcInferInput.ofName "IN") "k" 0 [] []).1,
   C2_set_parameter_validation.2.2.1 (GrpcInferInput.ofName "IN") (PyVal.int 3) (PyVal.int 1)
     (fun _ h => PyVal.noConfusion h),
   C2_set_parameter_validation.2.2.2.2.1 (HttpInferInput.ofName "IN") "k" (PyVal.float 0)⟩

/-- C3: evaluation of the code at the failing input. The claim says request
assembly never fails except on a malformed parameter value kind; in the code
`_get_inference_request` invokes `_set_parameter(request, ...)` without
`self.`, so the very first iteration over ANY non-empty parameters dict —
well-typed values included — raises `NameError`. With parameters absent the
assembly does succeed without I/O. -/
theorem C3_nonempty_parameters_name_error :
    get_inference_request [] [] "simple_model" "" Option.none (some [("p", PyVal.int 5)])
      = Except.error (PyErr.nameError "_set_parameter") ∧
    (∀ (inputs : List GrpcInferInput) (outputs : List GrpcInferOutput)
        (mn mv : String) (rid : Option String) (p : String × PyVal)
        (ps : List (String × PyVal)),
      get_inference_request inputs outputs mn mv rid (some (p :: ps))
        = Except.error (PyErr.nameError "_set_parameter")) ∧
    (∀ (inputs : List GrpcInferInput) (outputs : List GrpcInferOutput)
        (mn mv : String) (rid : Option String),
      get_inference_request inputs outputs mn mv rid Option.none
        = Except.ok
            { model_name := mn
              model_version := mv
              id := match rid with
                    | some s => s
                    | Option.none => ""
              inputs := inputs.map GrpcInferInput.get_tensor
              outputs := outputs.map GrpcInferOutput.get_tensor
              parameters := [] }) :=
  ⟨rfl, fun _ _ _ _ _ _ _ => rfl, fun _ _ _ _ _ => rfl⟩

/-- C4: the JSON/REST client's `infer` first issues a POST of the serialized
request body to the model's infer URI and then a second, separate GET to the
same URI; the returned `InferResult` is built from the GET response's body,
and the POST's own response body is discarded (the result is the same for
any two transports that agree on the GET exchange alone). -/
theorem C4_http_infer_post_then_get :
    (∀ (stub : HttpRequestRec → HttpResponse) (inputs : List HttpInferInput)
        (mn mv : String) (outputs : Option (List HttpInferOutput))
        (rid : Option String) (params : Option (List (String × PyVal))),
      httpInfer stub inputs mn mv outputs rid params =
        ([⟨HttpMethod.post, httpInferUri mn mv,
            some (httpInferRequestBody inputs outputs rid params)⟩,
          ⟨HttpMethod.get, httpInferUri mn mv, Option.none⟩],
         ⟨(stub ⟨HttpMethod.get, httpInferUri mn mv, Option.none⟩).body⟩)) ∧
    (∀ (stub1 stub2 : HttpRequestRec → HttpResponse) (inputs : List HttpInferInput)
        (mn mv : String) (outputs : Option (List HttpInferOutput))
        (rid : Option String) (params : Option (List (String × PyVal))),
      stub1 ⟨HttpMethod.get, httpInferUri mn mv, Option.none⟩
        = stub2 ⟨HttpMethod.get, httpInferUri mn mv, Option.none⟩ →
      (httpInfer stub1 inputs mn mv outputs rid params).2
        = (httpInfer stub2 inputs mn mv outputs rid params).2) := by
  constructor
  · intro stub inputs mn mv outputs rid params
    rfl
  · intro stub1 stub2 inputs mn mv outputs rid params h
    simp [httpInfer, h]

/-- Witness for C4: two concrete transports that agree on the GET exchange
but return different POST responses produce the same `InferResult`. -/
theorem C4_http_infer_post_then_get_witness :
    ((fun _ : HttpRequestRec => HttpResponse.mk 200 (PyVal.dict []))
        (HttpRequestRec.mk HttpMethod.get (httpInferUri "m" "") Option.none)
      = (fun r : HttpRequestRec => match r.method with
          | HttpMethod.post => HttpResponse.mk 500 (PyVal.str "discarded")
          | HttpMethod.get => HttpResponse.mk 200 (PyVal.dict []))
          (HttpRequestRec.mk HttpMethod.get (httpInferUri "m" "") Option.none)) ∧
    ((httpInfer (fun _ : HttpRequestRec => HttpResponse.mk 200 (PyVal.dict [])) [] "m" ""
        Option.none Option.none Option.none).2
      = (httpInfer (fun r : HttpRequestRec => match r.method with
          | HttpMethod.post => HttpResponse.mk 500 (PyVal.str "discarded")
          | HttpMethod.get => HttpResponse.mk 200 (PyVal.dict [])) [] "m" ""
          Option.none Option.none Option.none).2) :=
  ⟨rfl,
   C4_http_infer_post_then_get.2 (fun _ : HttpRequestRec => HttpResponse.mk 200 (PyVal.dict []))
     (fun r : HttpRequestRec => match r.method with
       | HttpMethod.post => HttpResponse.mk 500 (PyVal.str "discarded")
       | HttpMethod.get => HttpResponse.mk 200 (PyVal.dict []))
     [] "m" "" Option.none Option.none Option.none rfl⟩

/-- C5: on either transport, `InferResult.as_numpy` for an output name
absent from the response's output list returns the explicit not-found value
(Python None) and raises nothing; and when duplicate names exist, the result
is decided by the first match in the output list alone (whatever follows the
first match is unreachable). -/
theorem C5_as_numpy_lookup_miss_first_match :
    (∀ (outs : List GrpcOutputTensor) (name : String),
      (∀ o ∈ outs, o.name ≠ name) →
      grpcAsNumpyLoop name outs = Except.ok Option.none) ∧
    (∀ (outs : List HttpOutputTensor) (name : String),
      (∀ o ∈ outs, o.name ≠ name) →
      httpAsNumpy outs name = Except.ok Option.none) ∧
    (∀ (pre : List GrpcOutputTensor) (out : GrpcOutputTensor)
        (post1 post2 : List GrpcOutputTensor) (name : String),
      (∀ o ∈ pre, o.name ≠ name) → out.name = name →
      grpcAsNumpyLoop name (pre ++ out :: post1)
        = grpcAsNumpyLoop name (pre ++ out :: post2)) ∧
    (∀ (pre : List HttpOutputTensor) (out : HttpOutputTensor)
        (post1 post2 : List HttpOutputTensor) (name : String),
      (∀ o ∈ pre, o.name ≠ name) → out.name = name →
      httpAsNumpy (pre ++ out :: post1) name
        = httpAsNumpy (pre ++ out :: post2) name) := by
  refine ⟨?_, ?_, ?_, ?_⟩
  · intro outs name h
    have := grpcAsNumpyLoop_append name outs h []
    simpa using this
  · intro outs name h
    have := httpAsNumpyLoop_append name outs h []
    simpa [httpAsNumpy] using this
  · intro pre out post1 post2 name hpre hname
    rw [grpcAsNumpyLoop_append name pre hpre, grpcAsNumpyLoop_append name pre hpre]
    simp [grpcAsNumpyLoop, hname]
  · intro pre out post1 post2 name hpre hname
    unfold httpAsNumpy
    rw [httpAsNumpyLoop_append name pre hpre, httpAsNumpyLoop_append name pre hpre]
    simp [httpAsNumpyLoop, hname]

/-- Witness for C5: a concrete gRPC response holding only "OUT_A" yields
None for the absent name "OUT_B", and a concrete duplicate-name HTTP
response is decided by its first "X" entry whatever follows it. -/
theorem C5_as_numpy_lookup_miss_first_match_witness :
    grpcAsNumpyLoop "OUT_B" [GrpcOutputTensor.mk "OUT_A" "INT32" [1] [1, 0, 0, 0] []]
      = Except.ok Option.none ∧
    httpAsNumpy
        ([] ++ HttpOutputTensor.mk "X" "INT32" [1] [PyVal.int 1] ::
          [HttpOutputTensor.mk "X" "INT32" [1] [PyVal.int 2]]) "X"
      = httpAsNumpy ([] ++ HttpOutputTensor.mk "X" "INT32" [1] [PyVal.int 1] :: []) "X" :=
  ⟨C5_as_numpy_lookup_miss_first_match.1
     [GrpcOutputTensor.mk "OUT_A" "INT32" [1] [1, 0, 0, 0] []] "OUT_B"
     (by intro o ho; simp at ho; subst ho; decide),
   C5_as_numpy_lookup_miss_first_match.2.2.2
     [] (HttpOutputTensor.mk "X" "INT32" [1] [PyVal.int 1])
     [HttpOutputTensor.mk "X" "INT32" [1] [PyVal.int 2]] [] "X"
     (by simp) rfl⟩

/-- C6: on the binary transport, building a request with `request_id` unset
(None) leaves the proto3 `id` field at its default, so it is omitted from
the wire form rather than encoded as an empty value; on the JSON transport,
the request body carries an 'id' field iff the caller passed a non-empty
`request_id`. -/
theorem C6_request_id_wire_presence :
    (∀ (inputs : List GrpcInferInput) (outputs : List GrpcInferOutput)
        (mn mv : String) (params : Option (List (String × PyVal)))
        (r : ModelInferRequest),
      get_inference_request inputs outputs mn mv Option.none params = Except.ok r →
      wire_omits_id r = true) ∧
    (∀ (inputs : List HttpInferInput) (outputs : Option (List HttpInferOutput))
        (rid : Option String) (params : Option (List (String × PyVal))),
      jsonHasKey (httpInferRequestBody inputs outputs rid params) "id" = true
        ↔ ∃ s : String, rid = some s ∧ s ≠ "") := by
  constructor
  · intro inputs outputs mn mv params r h
    match params with
    | Option.none =>
      simp [get_inference_request] at h
      simp [wire_omits_id, ← h]
    | some [] =>
      simp [get_inference_request] at h
      simp [wire_omits_id, ← h]
    | some (p :: ps) =>
      simp [get_inference_request] at h
  · intro inputs outputs rid params
    have hid : ∀ m : List (String × PyVal), ∀ v : PyVal,
        (dictSet m "inputs" v).lookup "id" = m.lookup "id" :=
      fun m v => lookup_dictSet_ne m "inputs" "id" v (by decide)
    have hout : ∀ m : List (String × PyVal), ∀ v : PyVal,
        (dictSet m "outputs" v).lookup "id" = m.lookup "id" :=
      fun m v => lookup_dictSet_ne m "outputs" "id" v (by decide)
    have hpar : ∀ m : List (String × PyVal), ∀ v : PyVal,
        (dictSet m "parameters" v).lookup "id" = m.lookup "id" :=
      fun m v => lookup_dictSet_ne m "parameters" "id" v (by decide)
    unfold httpInferRequestBody jsonHasKey
    match outputs, params, rid with
    | Option.none, Option.none, Option.none =>
      simp [hid, List.lookup]
    | Option.none, Option.none, some s =>
      by_cases hs : s = "" <;> simp [hs, hid, dictSet, List.lookup]
    | Option.none, some [], Option.none =>
      simp [hid, List.lookup]
    | Option.none, some [], some s =>
      by_cases hs : s = "" <;> simp [hs, hid, dictSet, List.lookup]
    | Option.none, some (p :: ps), Option.none =>
      simp [hid, hpar, List.lookup]
    | Option.none, some (p :: ps), some s =>
      by_cases hs : s = "" <;> simp [hs, hid, hpar, dictSet, List.lookup]
    | some [], Option.none, Option.none =>
      simp [hid, List.lookup]
    | some [], Option.none, some s =>
      by_cases hs : s = "" <;> simp [hs, hid, dictSet, List.lookup]
    | some [], some [], Option.none =>
      simp [hid, List.lookup]
    | some [], some [], some s =>
      by_cases hs : s = "" <;> simp [hs, hid, dictSet, List.lookup]
    | some [], some (p :: ps), Option.none =>
      simp [hid, hpar, List.lookup]
    | some [], some (p :: ps), some s =>
      by_cases hs : s = "" <;> simp [hs, hid, hpar, dictSet, List.lookup]
    | some (o :: os), Option.none, Option.none =>
      simp [hid, hout, List.lookup]
    | some (o :: os), Option.none, some s =>
      by_cases hs : s = "" <;> simp [hs, hid, hout, dictSet, List.lookup]
    | some (o :: os), some [], Option.none =>
      simp [hid, hout, List.lookup]
    | some (o :: os), some [], some s =>
      by_cases hs : s = "" <;> simp [hs, hid, hout, dictSet, List.lookup]
    | some (o :: os), some (p :: ps), Option.none =>
      simp [hid, hout, hpar, List.lookup]
    | some (o :: os), some (p :: ps), some s =>
      by_cases hs : s = "" <;> simp [hs, hid, hout, hpar, dictSet, List.lookup]

/-- Witness for C6: with `request_id` unset the concrete built gRPC request
omits the id field from the wire form, and a concrete HTTP body built with
request_id "abc" carries the 'id' field. -/
theorem C6_request_id_wire_presence_witness :
    (get_inference_request [] [] "m" "" Option.none Option.none
        = Except.ok
            { model_name := "m", model_version := "", id := "",
              inputs := [], outputs := [], parameters := [] } →
      wire_omits_id
          { model_name := "m", model_version := "", id := "",
            inputs := [], outputs := [], parameters := [] } = true) ∧
    wire_omits_id
        { model_name := "m", model_version := "", id := "",
          inputs := [], outputs := [], parameters := [] } = true ∧
    (jsonHasKey (httpInferRequestBody [] Option.none (some "abc") Option.none) "id" = true
      ↔ ∃ s : String, some "abc" = some s ∧ s ≠ "") :=
  ⟨C6_request_id_wire_presence.1 [] [] "m" "" Option.none _,
   C6_request_id_wire_presence.1 [] [] "m" "" Option.none _ rfl,
   C6_request_id_wire_presence.2 [] Option.none (some "abc") Option.none⟩

/-- C7: every transport-origin failure is translated into the uniform
`InferenceServerException` before reaching the caller. A failing gRPC call
raised through `infer` carries the transport error's message (`details()`),
status classification (`str(code())`) and debug string
(`debug_error_string()`) intact; a non-200 JSON-transport status decodes the
JSON error envelope and raises with its "error" message. -/
theorem C7_uniform_error_translation :
    (∀ (e : RpcErrorRec) (inputs : List GrpcInferInput)
        (outputs : List GrpcInferOutput) (mn mv : String) (rid : Option String),
      grpcInfer (fun _ => Except.error e) inputs outputs mn mv rid Option.none
        = Except.error
            (PyErr.inferError ⟨e.details, some e.code, some e.debug_error_string⟩)) ∧
    (∀ (resp : HttpResponse) (fields : List (String × PyVal)) (m : String),
      resp.status_code ≠ 200 → resp.body = PyVal.dict fields →
      fields.lookup "error" = some (PyVal.str m) →
      raise_if_error resp
        = Except.error (PyErr.inferError ⟨m, Option.none, Option.none⟩)) := by
  constructor
  · intro e inputs outputs mn mv rid
    rfl
  · intro resp fields m h1 h2 h3
    simp [raise_if_error, h1, h2, h3, raise_error]

/-- Witness for C7: a concrete 400 response with body
`{"error": "model x not found"}` raises the uniform error carrying that
message (and a concrete failing RPC is translated intact). -/
theorem C7_uniform_error_translation_witness :
    (grpcInfer (fun _ => Except.error (RpcErrorRec.mk "deadline exceeded"
          "StatusCode.DEADLINE_EXCEEDED" "grpc debug info")) [] [] "m" "" Option.none Option.none
      = Except.error (PyErr.inferError ⟨"deadline exceeded",
          some "StatusCode.DEADLINE_EXCEEDED", some "grpc debug info"⟩)) ∧
    ((HttpResponse.mk 400 (PyVal.dict [("error", PyVal.str "model x not found")])).status_code ≠ 200 ∧
      (HttpResponse.mk 400 (PyVal.dict [("error", PyVal.str "model x not found")])).body
        = PyVal.dict [("error", PyVal.str "model x not found")] ∧
      raise_if_error (HttpResponse.mk 400 (PyVal.dict [("error", PyVal.str "model x not found")]))
        = Except.error (PyErr.inferError ⟨"model x not found", Option.none, Option.none⟩)) :=
  ⟨C7_uniform_error_translation.1 (RpcErrorRec.mk "deadline exceeded"
      "StatusCode.DEADLINE_EXCEEDED" "grpc debug info") [] [] "m" "" Option.none,
   by decide,
   rfl,
   C7_uniform_error_translation.2
     (HttpResponse.mk 400 (PyVal.dict [("error", PyVal.str "model x not found")]))
     [("error", PyVal.str "model x not found")] "model x not found"
     (by decide) rfl rfl⟩

/-- C8: on the JSON/REST transport, an input named "INPUT0" filled from a
4-byte signed integer array of shape [1,4] with values [1,2,3,4] encodes
through `_get_tensor` to the wire object with name "INPUT0", datatype
"INT32", shape [1,4], empty parameters, and flat row-major data [1,2,3,4]
(the second conjunct matches the claim's field order; a JSON object is an
unordered field set, so the two listings are permutations). -/
theorem C8_http_int32_tensor_encoding :
    ((HttpInferInput.ofName "INPUT0").set_data_from_numpy
        (NpInputTensor.mk "int32" [1, 4] [1, 2, 3, 4])).get_tensor
      = [("name", PyVal.str "INPUT0"), ("datatype", PyVal.str "INT32"),
         ("shape", PyVal.list [PyVal.int 1, PyVal.int 4]),
         ("data", PyVal.list [PyVal.int 1, PyVal.int 2, PyVal.int 3, PyVal.int 4]),
         ("parameters", PyVal.dict [])] ∧
    List.Perm
      (((HttpInferInput.ofName "INPUT0").set_data_from_numpy
          (NpInputTensor.mk "int32" [1, 4] [1, 2, 3, 4])).get_tensor)
      [("name", PyVal.str "INPUT0"), ("datatype", PyVal.str "INT32"),
       ("shape", PyVal.list [PyVal.int 1, PyVal.int 4]),
       ("parameters", PyVal.dict []),
       ("data", PyVal.list [PyVal.int 1, PyVal.int 2, PyVal.int 3, PyVal.int 4])] := by
  constructor
  · rfl
  · show List.Perm
      [("name", PyVal.str "INPUT0"), ("datatype", PyVal.str "INT32"),
       ("shape", PyVal.list [PyVal.int 1, PyVal.int 4]),
       ("data", PyVal.list [PyVal.int 1, PyVal.int 2, PyVal.int 3, PyVal.int 4]),
       ("parameters", PyVal.dict [])]
      [("name", PyVal.str "INPUT0"), ("datatype", PyVal.str "INT32"),
       ("shape", PyVal.list [PyVal.int 1, PyVal.int 4]),
       ("parameters", PyVal.dict []),
       ("data", PyVal.list [PyVal.int 1, PyVal.int 2, PyVal.int 3, PyVal.int 4])]
    exact List.Perm.cons _ (List.Perm.cons _ (List.Perm.cons _ (List.Perm.swap _ _ _)))

/-- C9: on the JSON/REST transport the `datatype` and `shape` property
getters of `InferInput` have no return statement, so after setting a value
the getter yields Python None — the set-then-get round trip never recovers
the stored value, even though the value is present in the underlying dict —
while the binary transport's `InferInput` getters return the stored value. -/
theorem C9_http_getters_return_none :
    (∀ (i : HttpInferInput) (v : String),
      (i.datatype_set v).datatype_get = Except.ok Option.none ∧
      (i.datatype_set v).input.lookup "datatype" = some (PyVal.str v)) ∧
    (∀ (i : HttpInferInput) (sh : List Nat),
      (i.shape_set sh).shape_get = Except.ok Option.none ∧
      (i.shape_set sh).input.lookup "shape"
        = some (PyVal.list (sh.map (fun n => PyVal.int n)))) ∧
    (∀ (g : GrpcInferInput) (v : String), (g.datatype_set v).datatype_get = v) ∧
    (∀ (g : GrpcInferInput) (sh : List Nat), (g.shape_set sh).shape_get = sh) := by
  refine ⟨?_, ?_, fun g v => rfl, fun g sh => rfl⟩
  · intro i v
    have hl := lookup_dictSet i.input "datatype" (PyVal.str v)
    constructor
    · unfold HttpInferInput.datatype_get HttpInferInput.datatype_set
      simp only [hl]
    · exact hl
  · intro i sh
    have hl := lookup_dictSet i.input "shape" (PyVal.list (sh.map (fun n => PyVal.int n)))
    constructor
    · unfold HttpInferInput.shape_get HttpInferInput.shape_set
      simp only [hl]
    · exact hl

/-- C10: on the binary transport, when the first output matching the looked-up
name has an empty `raw_contents` buffer and an empty `byte_contents` list, no
branch of `as_numpy` assigns `np_array`, so the subsequent `np.resize` use
raises `UnboundLocalError` instead of returning an empty array or None. -/
theorem C10_grpc_as_numpy_empty_contents_raises :
    ∀ (pre : List GrpcOutputTensor) (out : GrpcOutputTensor)
      (post : List GrpcOutputTensor) (name : String),
      (∀ o ∈ pre, o.name ≠ name) → out.name = name →
      out.raw_contents = [] → out.byte_contents = [] →
      grpcAsNumpyLoop name (pre ++ out :: post)
        = Except.error (PyErr.unboundLocal "np_array") := by
  intro pre out post name hpre hname hraw hbyte
  rw [grpcAsNumpyLoop_append name pre hpre]
  simp [grpcAsNumpyLoop, hname, grpcDecodeFlat, hraw, hbyte]

/-- Witness for C10: a concrete response whose matching output has both
content fields empty makes `as_numpy` raise. -/
theorem C10_grpc_as_numpy_empty_contents_raises_witness :
    grpcAsNumpyLoop "OUT0" ([] ++ GrpcOutputTensor.mk "OUT0" "INT32" [2] [] [] :: [])
      = Except.error (PyErr.unboundLocal "np_array") :=
  C10_grpc_as_numpy_empty_contents_raises [] (GrpcOutputTensor.mk "OUT0" "INT32" [2] [] [])
    [] "OUT0" (by simp) rfl rfl rfl
